import Mathlib

/-!
Verification of the 2N intercom integration's Device Polling & Derived-State
Engine against its specification.  The definitions below are shallow
embeddings of the Python sources under `custom_components/`:

* `ringStep` / `runRing` embed the ring-edge detection portion of
  `twon_intercom/coordinator.py` (`_async_update_data`, lines 69–85);
* `updateData` embeds the failure classification and retry bookkeeping of
  the same method (lines 59–135);
* `coordGetSnapshot` embeds `twon_intercom/coordinator.py`
  `async_get_snapshot` (lines 190–216);
* `snapshotFetch` embeds `2n_intercom/api.py` `async_get_snapshot`
  (lines 306–367) with its one-shot 640×480 fallback;
* `switchStep` embeds the timed pulse/auto-revert logic of
  `2n_intercom/switch.py` (`async_turn_on` / `async_turn_off` /
  `_async_turn_off_after_delay`), split at its `await` suspension point;
* `async_lock` / `async_unlock` / `async_open` embed
  `twon_intercom/lock.py`;
* the `rtsp` definitions embed `get_rtsp_url` /
  `get_rtsp_url_with_credentials` of both api variants.

Times are modelled as integers counting milliseconds (the unit the
API itself uses for pulse durations), so the source's 30-second ring
timeout is `30000` and the 1-second snapshot-cache TTL is `1000`;
byte strings are `List ℕ`.
-/

namespace TwoN

/-- State retained by the coordinator between poll cycles for ring-edge
detection: the previously seen call state string (`_last_call_state`,
read back through `.get("state", "idle")`), the `_ring_detected` flag and
the `_last_ring_time` timestamp. -/
structure RingState where
  lastCallState : String
  ringDetected : Bool
  lastRingTime : Option ℤ
deriving DecidableEq, Repr

/-- Initial coordinator state: `_last_call_state = {}` (whose
`.get("state", "idle")` is `"idle"`), `_ring_detected = False`,
`_last_ring_time = None`. -/
def initRingState : RingState := ⟨"idle", false, none⟩

/-- The timeout test `self._last_ring_time is None or
(datetime.now() - self._last_ring_time).total_seconds() > 30`. -/
def ringTimedOut (now : ℤ) : Option ℤ → Bool
  | none => true
  | some t => decide (now - t > 30000)

/-- One successful poll cycle's ring-edge handling, from
`twon_intercom/coordinator.py` lines 69–85: set the flag and the timestamp
on a rising edge into `"ringing"`; on a non-`"ringing"` state clear the
flag once the timeout has expired; always retain the current state as the
new previous state. -/
def ringStep (st : RingState) (now : ℤ) (current : String) : RingState :=
  if current = "ringing" ∧ st.lastCallState ≠ "ringing" then
    { lastCallState := current, ringDetected := true, lastRingTime := some now }
  else if current ≠ "ringing" then
    if st.ringDetected && ringTimedOut now st.lastRingTime then
      { lastCallState := current, ringDetected := false, lastRingTime := st.lastRingTime }
    else
      { lastCallState := current, ringDetected := st.ringDetected, lastRingTime := st.lastRingTime }
  else
    { lastCallState := current, ringDetected := st.ringDetected, lastRingTime := st.lastRingTime }

/-- A sequence of successful poll cycles, each a (time, state) pair, fed
through the engine from its initial state. -/
def runRing (trace : List (ℤ × String)) : RingState :=
  trace.foldl (fun st c => ringStep st c.1 c.2) initRingState

/-- C1: per poll cycle of the ring-edge detector — a rising edge into
`"ringing"` sets `ringActive` and stamps `lastRingTime`; while the state
stays `"ringing"` the flag stays true and the stamp is unchanged; on a
non-`"ringing"` state the flag survives while at most 30 seconds have
elapsed since `lastRingTime` and is cleared once more than 30 seconds
have elapsed. -/
theorem c1_ring_edge_cycle (st : RingState) (now t : ℤ) (current : String) :
    (current = "ringing" → st.lastCallState ≠ "ringing" →
      (ringStep st now current).ringDetected = true ∧
      (ringStep st now current).lastRingTime = some now) ∧
    (current = "ringing" → st.lastCallState = "ringing" →
      (st.ringDetected = true → (ringStep st now current).ringDetected = true) ∧
      (ringStep st now current).lastRingTime = st.lastRingTime) ∧
    (current ≠ "ringing" → st.ringDetected = true → st.lastRingTime = some t →
      (now - t ≤ 30000 → (ringStep st now current).ringDetected = true) ∧
      (now - t > 30000 → (ringStep st now current).ringDetected = false)) := by
  refine ⟨?_, ?_, ?_⟩
  · intro hc hp
    simp [ringStep, hc, hp]
  · intro hc hp
    constructor
    · intro hd
      simp [ringStep, hc, hp, hd]
    · simp [ringStep, hc, hp]
  · intro hc hd hlrt
    constructor
    · intro hle
      have hnot : ¬ (now - t > 30000) := not_lt.mpr hle
      simp [ringStep, hc, hd, hlrt, ringTimedOut, hnot]
    · intro hgt
      simp [ringStep, hc, hd, hlrt, ringTimedOut, hgt]

/-- C1 witness: the theorem instantiated at concrete cycles — a rising
edge from the initial state at 5000 ms, and a non-ringing cycle 31
seconds after a ring at 5000 ms. -/
theorem c1_ring_edge_cycle_witness :
    ((ringStep initRingState 5000 "ringing").ringDetected = true ∧
      (ringStep initRingState 5000 "ringing").lastRingTime = some 5000) ∧
    ((ringStep ⟨"idle", true, some 5000⟩ 36000 "idle").ringDetected = false) :=
  ⟨(c1_ring_edge_cycle initRingState 5000 0 "ringing").1 rfl (by decide),
    ((c1_ring_edge_cycle ⟨"idle", true, some 5000⟩ 36000 5000 "idle").2.2
      (by decide) rfl rfl).2 (by decide)⟩

/-- The call state seen by the cycle after a (reversed) history: the head
of the reversed trace, or the initial `"idle"` for an empty history. -/
def prevStateRev (r : List (ℤ × String)) : String :=
  ((r.head?).map Prod.snd).getD "idle"

/-- Time of the most recent rising edge into `"ringing"` in a reversed
trace (most recent cycle first). -/
def lastEdgeRev : List (ℤ × String) → Option ℤ
  | [] => none
  | (t, s) :: rest =>
    if s = "ringing" ∧ prevStateRev rest ≠ "ringing" then some t else lastEdgeRev rest

/-- Time of the most recent cycle whose state was `"ringing"` in a
reversed trace. -/
def lastObservedRev : List (ℤ × String) → Option ℤ
  | [] => none
  | (t, s) :: rest => if s = "ringing" then some t else lastObservedRev rest

/-- Claim C3 as stated, read off the trace: `ringActive` is true after a
trace iff the trace ends in `"ringing"`, or it was active before the last
cycle and at most 30 seconds have elapsed since the last time `"ringing"`
was observed.  (Input is the reversed trace.) -/
def claimedRingActiveRev : List (ℤ × String) → Bool
  | [] => false
  | (t, s) :: rest =>
    if s = "ringing" then true
    else claimedRingActiveRev rest && decide (t - ((lastObservedRev rest).getD 0) ≤ 30000)

/-- Amended C3, read off the trace: `ringActive` is true after a trace iff
the trace ends in a rising edge into `"ringing"`, or it stays `"ringing"`
and was active before, or the state has left `"ringing"` and the engine
was active before with at most 30 seconds elapsed since the most recent
rising edge.  (Input is the reversed trace.) -/
def specRingActiveRev : List (ℤ × String) → Bool
  | [] => false
  | (t, s) :: rest =>
    if s = "ringing" then
      if prevStateRev rest ≠ "ringing" then true else specRingActiveRev rest
    else specRingActiveRev rest && decide (t - ((lastEdgeRev rest).getD 0) ≤ 30000)

/-- `ringStep` on a rising edge into `"ringing"`. -/
lemma ringStep_edge (st : RingState) (now : ℤ) (s : String)
    (h1 : s = "ringing") (h2 : st.lastCallState ≠ "ringing") :
    ringStep st now s = ⟨s, true, some now⟩ := by
  unfold ringStep
  simp [h1, h2]

/-- `ringStep` while the state stays `"ringing"`. -/
lemma ringStep_continuing (st : RingState) (now : ℤ) (s : String)
    (h1 : s = "ringing") (h2 : st.lastCallState = "ringing") :
    ringStep st now s = ⟨s, st.ringDetected, st.lastRingTime⟩ := by
  unfold ringStep
  simp [h1, h2]

/-- `ringStep` on a non-`"ringing"` state. -/
lemma ringStep_not_ringing (st : RingState) (now : ℤ) (s : String)
    (hs : s ≠ "ringing") :
    ringStep st now s
      = ⟨s, st.ringDetected && !ringTimedOut now st.lastRingTime, st.lastRingTime⟩ := by
  unfold ringStep
  have hA : ¬(s = "ringing" ∧ st.lastCallState ≠ "ringing") := fun h => hs h.1
  simp only [hA, if_false, hs, if_neg, ite_not, if_true, not_false_eq_true]
  cases hd : st.ringDetected with
  | false => simp
  | true =>
    cases ht : ringTimedOut now st.lastRingTime with
    | false => simp
    | true => simp

/-- Folding the engine step from the right over the reversed trace is the
same as running the engine over the trace. -/
lemma runRing_eq_foldr (trace : List (ℤ × String)) :
    runRing trace
      = trace.reverse.foldr (fun c st => ringStep st c.1 c.2) initRingState := by
  simp [runRing, List.foldr_reverse]

/-- The engine's retained previous call state after a reversed trace. -/
lemma foldr_lastCallState (r : List (ℤ × String)) :
    (r.foldr (fun c st => ringStep st c.1 c.2) initRingState).lastCallState
      = prevStateRev r := by
  cases r with
  | nil => rfl
  | cons c rest =>
    show (ringStep _ c.1 c.2).lastCallState = c.2
    by_cases h1 : c.2 = "ringing"
    · by_cases h2 : (rest.foldr (fun c st => ringStep st c.1 c.2)
          initRingState).lastCallState = "ringing"
      · rw [ringStep_continuing _ _ _ h1 h2]
      · rw [ringStep_edge _ _ _ h1 h2]
    · rw [ringStep_not_ringing _ _ _ h1]

/-- The engine's `lastRingTime` after a reversed trace is the time of the
most recent rising edge. -/
lemma foldr_lastRingTime (r : List (ℤ × String)) :
    (r.foldr (fun c st => ringStep st c.1 c.2) initRingState).lastRingTime
      = lastEdgeRev r := by
  induction r with
  | nil => rfl
  | cons c rest ih =>
    obtain ⟨t, s⟩ := c
    show (ringStep _ t s).lastRingTime = _
    have hprev := foldr_lastCallState rest
    by_cases h1 : s = "ringing"
    · by_cases h2 : (rest.foldr (fun c st => ringStep st c.1 c.2)
          initRingState).lastCallState = "ringing"
      · rw [ringStep_continuing _ _ _ h1 h2]
        have : ¬(s = "ringing" ∧ prevStateRev rest ≠ "ringing") := by
          rw [← hprev]; exact fun h => h.2 h2
        simp [lastEdgeRev, this, ih]
      · rw [ringStep_edge _ _ _ h1 h2]
        have : s = "ringing" ∧ prevStateRev rest ≠ "ringing" := by
          rw [← hprev]; exact ⟨h1, h2⟩
        simp [lastEdgeRev, this]
    · rw [ringStep_not_ringing _ _ _ h1]
      have : ¬(s = "ringing" ∧ prevStateRev rest ≠ "ringing") := fun h => h1 h.1
      simp [lastEdgeRev, this, ih]

/-- If the amended spec says the ring is active then some rising edge has
occurred, so `lastEdgeRev` is set. -/
lemma specRingActiveRev_edge (r : List (ℤ × String)) :
    specRingActiveRev r = true → ∃ te, lastEdgeRev r = some te := by
  induction r with
  | nil => simp [specRingActiveRev]
  | cons c rest ih =>
    obtain ⟨t, s⟩ := c
    by_cases hr : s = "ringing"
    · by_cases hp : prevStateRev rest = "ringing"
      · have hne : ¬(s = "ringing" ∧ prevStateRev rest ≠ "ringing") :=
          fun h => h.2 hp
        intro h
        rw [specRingActiveRev] at h
        simp only [hr, if_true, hp, ne_eq, not_true_eq_false, if_false] at h
        simpa [lastEdgeRev, hne] using ih h
      · have hyes : s = "ringing" ∧ prevStateRev rest ≠ "ringing" := ⟨hr, hp⟩
        intro _
        exact ⟨t, by simp [lastEdgeRev, hyes]⟩
    · have hne : ¬(s = "ringing" ∧ prevStateRev rest ≠ "ringing") := fun h => hr h.1
      intro h
      rw [specRingActiveRev] at h
      simp only [hr, if_false, Bool.and_eq_true] at h
      simpa [lastEdgeRev, hne] using ih h.1

/-- The engine's ring flag after a reversed trace agrees with the amended
backward-looking characterization. -/
lemma foldr_ringDetected (r : List (ℤ × String)) :
    (r.foldr (fun c st => ringStep st c.1 c.2) initRingState).ringDetected
      = specRingActiveRev r := by
  induction r with
  | nil => rfl
  | cons c rest ih =>
    obtain ⟨t, s⟩ := c
    show (ringStep _ t s).ringDetected = _
    have hprev := foldr_lastCallState rest
    by_cases h1 : s = "ringing"
    · by_cases h2 : (rest.foldr (fun c st => ringStep st c.1 c.2)
          initRingState).lastCallState = "ringing"
      · rw [ringStep_continuing _ _ _ h1 h2]
        have hp : ¬prevStateRev rest ≠ "ringing" := by rw [← hprev]; simpa using h2
        simp [specRingActiveRev, h1, hp, ih]
      · rw [ringStep_edge _ _ _ h1 h2]
        have hp : prevStateRev rest ≠ "ringing" := by rw [← hprev]; exact h2
        simp [specRingActiveRev, h1, hp]
    · rw [ringStep_not_ringing _ _ _ h1]
      rw [foldr_lastRingTime rest]
      cases hact : specRingActiveRev rest with
      | false => simp [specRingActiveRev, h1, hact, ih]
      | true =>
        obtain ⟨te, hte⟩ := specRingActiveRev_edge rest hact
        simp only [specRingActiveRev, h1, if_false, hact, Bool.true_and, ih,
          hte, Option.getD_some, ringTimedOut]
        by_cases hgt : t - te > 30000
        · simp [hgt, not_le.mpr hgt]
        · simp [hgt, not_lt.mp hgt]

/-- C3 counterexample: the trace rings at 0 s, is still ringing at 40 s,
and is idle at 41 s.  Ringing was last observed 1 second before the idle
cycle, so the claim as stated requires `ringActive` to still be true,
but the engine measures the 30-second window from the rising edge at 0 s
and clears the flag. -/
theorem c3_counterexample :
    (runRing [(0, "ringing"), (40000, "ringing"), (41000, "idle")]).ringDetected = false ∧
    claimedRingActiveRev
      ([(0, "ringing"), (40000, "ringing"), (41000, "idle")]).reverse = true := by
  constructor
  · decide
  · decide

/-- C3 (amended): over every trace of poll cycles, `ringActive` becomes
true exactly on a transition into `"ringing"` and becomes false exactly
at the first polled non-`"ringing"` cycle more than 30 seconds after the
most recent rising edge (the time stored in `lastRingTime`), not after
the last observation of `"ringing"`. -/
theorem c3_ring_active_trace (trace : List (ℤ × String)) :
    (runRing trace).ringDetected = specRingActiveRev trace.reverse ∧
    (runRing trace).lastRingTime = lastEdgeRev trace.reverse := by
  rw [runRing_eq_foldr]
  exact ⟨foldr_ringDetected trace.reverse, foldr_lastRingTime trace.reverse⟩

/-- `MAX_RETRIES = 5` from `twon_intercom/coordinator.py`. -/
def MAX_RETRIES : ℕ := 5

/-- Coordinator state across cycles: ring-detection state plus the
`_retry_count` counter. -/
structure CoordState where
  ring : RingState
  retryCount : ℕ
deriving DecidableEq, Repr

/-- Fresh coordinator: `_retry_count = 0`. -/
def initCoordState : CoordState := ⟨initRingState, 0⟩

/-- Outcome of one call of the device client inside a poll cycle, the
closed classification used by `_async_update_data`'s `except` arms. -/
inductive FetchResult
  | ok (state : String)
  | authError
  | connError
  | apiError
deriving DecidableEq, Repr

/-- What one poll cycle raises or returns: a published snapshot, the
fatal authentication error (`ConfigEntryNotReady`), a recoverable
`UpdateFailed` carrying the advisory backoff delay in seconds, the fatal
retries-exhausted `ConfigEntryNotReady`, or the generic recoverable
`UpdateFailed`. -/
inductive CycleOutcome
  | success (data : RingState)
  | fatalAuth
  | recoverableConnFailure (delaySeconds : ℕ)
  | fatalExhausted
  | recoverableApiFailure
deriving DecidableEq, Repr

/-- One poll cycle of `_async_update_data` (lines 59–135): on success
reset `_retry_count` and run ring detection; on an authentication error
raise fatally; on a connection/timeout error below `MAX_RETRIES`
increment `_retry_count` and raise `UpdateFailed` with advisory delay
`min(2 ** retry_count, 60)` seconds, else raise fatally; on any other
error raise `UpdateFailed` with the counter untouched. -/
def updateData (st : CoordState) (now : ℤ) (res : FetchResult) :
    CoordState × CycleOutcome :=
  match res with
  | .ok s =>
      let ring := ringStep st.ring now s
      (⟨ring, 0⟩, .success ring)
  | .authError => (st, .fatalAuth)
  | .connError =>
      if st.retryCount < MAX_RETRIES then
        (⟨st.ring, st.retryCount + 1⟩,
          .recoverableConnFailure (min (2 ^ (st.retryCount + 1)) 60))
      else (st, .fatalExhausted)
  | .apiError => (st, .recoverableApiFailure)

/-- A sequence of poll cycles from a fresh coordinator, collecting each
cycle's outcome. -/
def runCycles (events : List (ℤ × FetchResult)) : CoordState × List CycleOutcome :=
  events.foldl
    (fun acc e =>
      let r := updateData acc.1 e.1 e.2
      (r.1, acc.2 ++ [r.2]))
    (initCoordState, [])

/-- C2: a connection/timeout failure with fewer than 5 consecutive
failures on record increments `consecutiveFailures` and fails the cycle
as recoverable `UpdateFailed` with advisory delay
`min(2^consecutiveFailures, 60)` seconds (computed from the incremented
count); once 5 consecutive failures are on record a further connection
failure surfaces the fatal exhausted-retries outcome instead of
retrying; any successful cycle resets the counter to 0.  From a fresh
coordinator, six consecutive connection failures produce five
recoverable outcomes with delays 2, 4, 8, 16, 32 and then the fatal
outcome. -/
theorem c2_retry_backoff (st : CoordState) (now : ℤ) (s : String) :
    (st.retryCount < 5 →
      (updateData st now .connError).1.retryCount = st.retryCount + 1 ∧
      (updateData st now .connError).2
        = .recoverableConnFailure (min (2 ^ (st.retryCount + 1)) 60)) ∧
    (5 ≤ st.retryCount →
      (updateData st now .connError).2 = .fatalExhausted ∧
      (updateData st now .connError).1 = st) ∧
    (updateData st now (.ok s)).1.retryCount = 0 ∧
    (runCycles (List.replicate 6 (0, .connError))).2
      = [.recoverableConnFailure 2, .recoverableConnFailure 4,
         .recoverableConnFailure 8, .recoverableConnFailure 16,
         .recoverableConnFailure 32, .fatalExhausted] := by
  refine ⟨?_, ?_, ?_, ?_⟩
  · intro h
    simp [updateData, MAX_RETRIES, h]
  · intro h
    have h' : ¬ st.retryCount < MAX_RETRIES := by simp [MAX_RETRIES]; omega
    simp [updateData, h']
  · simp [updateData]
  · decide

/-- C2 witness: from a fresh coordinator, the first connection failure
is recoverable with delay `min(2^1, 60) = 2` and sets the counter to 1;
at counter 5 a connection failure is fatal; a successful cycle resets
the counter. -/
theorem c2_retry_backoff_witness :
    ((updateData initCoordState 0 .connError).1.retryCount = 1 ∧
      (updateData initCoordState 0 .connError).2 = .recoverableConnFailure 2) ∧
    (updateData ⟨initRingState, 5⟩ 0 .connError).2 = .fatalExhausted ∧
    (updateData ⟨initRingState, 5⟩ 0 (.ok "idle")).1.retryCount = 0 :=
  ⟨(c2_retry_backoff initCoordState 0 "idle").1 (by decide),
    ((c2_retry_backoff ⟨initRingState, 5⟩ 0 "idle").2.1 (by decide)).1,
    (c2_retry_backoff ⟨initRingState, 5⟩ 0 "idle").2.2.1⟩

/-- Snapshot cache slot of the coordinator: `_snapshot_cache` and
`_snapshot_cache_time`. -/
structure SnapCache where
  cache : Option (List ℕ)
  cacheTime : Option ℤ
deriving DecidableEq, Repr

/-- Fresh coordinator: both cache fields are `None`. -/
def initSnapCache : SnapCache := ⟨none, none⟩

/-- Python truthiness of the api result `bytes | None`: `None` and the
empty byte string are falsy. -/
def snapshotTruthy : Option (List ℕ) → Bool
  | none => false
  | some b => !b.isEmpty

/-- `twon_intercom/coordinator.py` `async_get_snapshot` (lines 190–216):
if both cache fields are set and less than 1 second old, return the
cached bytes without contacting the device; otherwise fetch from the api
(which returns `None` on any error instead of raising), store the result
only when it is truthy, and return it.  The result is (returned value,
new cache state, whether a device request was issued). -/
def coordGetSnapshot (st : SnapCache) (now : ℤ) (fetch : Option (List ℕ)) :
    Option (List ℕ) × SnapCache × Bool :=
  let cacheHit :=
    match st.cache, st.cacheTime with
    | some _, some t0 => decide (now - t0 < 1000)
    | _, _ => false
  if cacheHit then (st.cache, st, false)
  else if snapshotTruthy fetch then (fetch, ⟨fetch, some now⟩, true)
  else (fetch, st, true)

/-- C6 counterexample: the device successfully returns the empty byte
string.  The claim as stated requires the bytes to be stored with the
current time, and a second call within 1 second to issue no device
request; the code's truthiness test skips the cache update, so the
second call 500 ms later issues a second device request. -/
theorem c6_counterexample :
    (coordGetSnapshot initSnapCache 0 (some [])).1 = some [] ∧
    (coordGetSnapshot initSnapCache 0 (some [])).2.1 = initSnapCache ∧
    (coordGetSnapshot initSnapCache 0 (some [])).2.2 = true ∧
    (coordGetSnapshot (coordGetSnapshot initSnapCache 0 (some [])).2.1 500
        (some [])).2.2 = true := by
  decide

/-- C6 (amended): a cache entry younger than 1 second is returned
verbatim with no device request and no cache change; otherwise a device
request is issued and — on success with non-empty bytes — the bytes are
stored with the current time and returned, so a second call within
1 second returns the identical bytes from the cache without a device
request; on failure `None` is returned without throwing and the cache is
unchanged; a successful fetch of the empty byte string is returned but
not cached. -/
theorem c6_snapshot_cache (st : SnapCache) (now now2 t0 : ℤ)
    (b bytes : List ℕ) (fetch fetch2 : Option (List ℕ)) :
    (st.cache = some b → st.cacheTime = some t0 → now - t0 < 1000 →
      coordGetSnapshot st now fetch = (some b, st, false)) ∧
    (fetch = none → (coordGetSnapshot st now fetch).2.2 = true →
      (coordGetSnapshot st now fetch).1 = none ∧
      (coordGetSnapshot st now fetch).2.1 = st) ∧
    (fetch = some [] → (coordGetSnapshot st now fetch).2.1.cache = st.cache) ∧
    ((coordGetSnapshot st now fetch).2.2 = true → fetch = some bytes →
      bytes ≠ [] → now2 - now < 1000 →
      (coordGetSnapshot st now fetch).1 = some bytes ∧
      coordGetSnapshot (coordGetSnapshot st now fetch).2.1 now2 fetch2
        = (some bytes, (coordGetSnapshot st now fetch).2.1, false)) := by
  refine ⟨?_, ?_, ?_, ?_⟩
  · intro hc ht hlt
    simp [coordGetSnapshot, hc, ht, hlt]
  · intro hf
    rw [coordGetSnapshot]
    split
    · intro hreq
      exact absurd hreq (by simp)
    · intro _
      simp [hf, snapshotTruthy]
  · intro hf
    rw [coordGetSnapshot]
    split
    · rfl
    · simp [hf, snapshotTruthy]
  · intro hreq hf hb hlt
    have htr : snapshotTruthy fetch = true := by
      simp [hf, snapshotTruthy, hb]
    by_cases hhit : (match st.cache, st.cacheTime with
        | some _, some t0 => decide (now - t0 < 1000)
        | _, _ => false) = true
    · exfalso
      rw [coordGetSnapshot] at hreq
      simp only [hhit, if_true] at hreq
      exact Bool.false_ne_true hreq
    · have hstep : coordGetSnapshot st now fetch
          = (fetch, ⟨fetch, some now⟩, true) := by
        rw [coordGetSnapshot]
        simp only [hhit, htr, if_true, if_false, Bool.false_eq_true]
      rw [hstep]
      refine ⟨by simp [hf], ?_⟩
      simp [coordGetSnapshot, hf, hlt]

/-- C6 witness: a fresh cache at time 0 receiving bytes `[1]` stores
them, and a second call at 500 ms returns them with no device request. -/
theorem c6_snapshot_cache_witness :
    (coordGetSnapshot initSnapCache 0 (some [1])).1 = some [1] ∧
    coordGetSnapshot (coordGetSnapshot initSnapCache 0 (some [1])).2.1 500 none
      = (some [1], (coordGetSnapshot initSnapCache 0 (some [1])).2.1, false) :=
  (c6_snapshot_cache initSnapCache 0 500 0 [] [1] (some [1]) none).2.2.2
    (by decide) rfl (by decide) (by decide)

/-- Device-side outcome of one snapshot HTTP request in
`2n_intercom/api.py`: an image body, a non-image body whose JSON error
code parsed to `code` (or `none` when unparsable), or a transport/HTTP
failure (timeout, client error, non-2xx status, unexpected exception). -/
inductive SnapResp
  | image (b : List ℕ)
  | nonImage (code : Option ℤ)
  | httpError
deriving DecidableEq, Repr

/-- `2n_intercom/api.py` `async_get_snapshot` (lines 306–367) at fixed
width/height, instrumented with the list of (width, height) requests it
issues: an image body is returned; a non-image body with error code 12
at a resolution other than 640×480 triggers exactly one recursive retry
at 640×480; every other failure returns `None`. -/
def snapshotFetch (dev : ℕ × ℕ → SnapResp) (w h : ℕ) :
    Option (List ℕ) × List (ℕ × ℕ) :=
  match dev (w, h) with
  | .image b => (some b, [(w, h)])
  | .httpError => (none, [(w, h)])
  | .nonImage code =>
      if hc : code = some 12 ∧ (w, h) ≠ (640, 480) then
        let r := snapshotFetch dev 640 480
        (r.1, (w, h) :: r.2)
      else (none, [(w, h)])
termination_by (if (w, h) = (640, 480) then 0 else 1)
decreasing_by simp [hc.2]

/-- `async_get_snapshot`'s parameter defaulting: `width`/`height` of
`None` become 640/480 before the request is issued. -/
def apiGetSnapshot (dev : ℕ × ℕ → SnapResp) (width height : Option ℕ) :
    Option (List ℕ) × List (ℕ × ℕ) :=
  snapshotFetch dev (width.getD 640) (height.getD 480)

/-- At the default resolution the fallback guard is false, so the fetch
is a single request. -/
lemma snapshotFetch_default (dev : ℕ × ℕ → SnapResp) :
    snapshotFetch dev 640 480
      = (match dev (640, 480) with
          | .image b => some b
          | _ => none,
        [(640, 480)]) := by
  rw [snapshotFetch]
  cases hres : dev (640, 480) with
  | image b => rfl
  | httpError => rfl
  | nonImage code => simp

/-- C7: a snapshot request answered by a non-image body with device
error code 12 at a resolution other than 640×480 issues exactly one
fallback retry at 640×480, returning that retry's image on success and
`None` when the retry also fails; at 640×480 error code 12 yields `None`
with no retry; an error code other than 12 (or an unparsable body)
yields `None` with no retry. -/
theorem c7_snapshot_fallback (dev : ℕ × ℕ → SnapResp) (w h : ℕ)
    (code : Option ℤ) (b : List ℕ) :
    (dev (w, h) = .nonImage (some 12) → (w, h) ≠ (640, 480) →
      (snapshotFetch dev w h).2 = [(w, h), (640, 480)] ∧
      (dev (640, 480) = .image b → (snapshotFetch dev w h).1 = some b) ∧
      (∀ c, dev (640, 480) = .nonImage c → (snapshotFetch dev w h).1 = none) ∧
      (dev (640, 480) = .httpError → (snapshotFetch dev w h).1 = none)) ∧
    (dev (640, 480) = .nonImage (some 12) →
      snapshotFetch dev 640 480 = (none, [(640, 480)])) ∧
    (dev (w, h) = .nonImage code → code ≠ some 12 →
      snapshotFetch dev w h = (none, [(w, h)])) := by
  refine ⟨?_, ?_, ?_⟩
  · intro hres hne
    have hstep : snapshotFetch dev w h
        = ((snapshotFetch dev 640 480).1, (w, h) :: (snapshotFetch dev 640 480).2) := by
      rw [snapshotFetch, hres]
      simp [hne]
    rw [hstep, snapshotFetch_default]
    refine ⟨rfl, ?_, ?_, ?_⟩
    · intro him; rw [him]
    · intro c hni; rw [hni]
    · intro herr; rw [herr]
  · intro hres
    rw [snapshotFetch_default, hres]
  · intro hres hcode
    rw [snapshotFetch, hres]
    have hno : ¬(code = some 12 ∧ (w, h) ≠ (640, 480)) := fun hcontra => hcode hcontra.1
    simp only []
    rw [dif_neg hno]

/-- C7 witness: a device that answers error code 12 at 1920×1080 and an
image `[7]` at 640×480 — the fetch issues the two requests
`[(1920, 1080), (640, 480)]` and returns the fallback image; a device
that always answers error code 12 yields `None` at the default
resolution with a single request. -/
theorem c7_snapshot_fallback_witness :
    (snapshotFetch
        (fun p => if p = (640, 480) then .image [7] else .nonImage (some 12))
        1920 1080).2 = [(1920, 1080), (640, 480)] ∧
    (snapshotFetch
        (fun p => if p = (640, 480) then .image [7] else .nonImage (some 12))
        1920 1080).1 = some [7] ∧
    snapshotFetch (fun _ => .nonImage (some 12)) 640 480 = (none, [(640, 480)]) :=
  ⟨((c7_snapshot_fallback
      (fun p => if p = (640, 480) then .image [7] else .nonImage (some 12))
      1920 1080 none [7]).1 (by decide) (by decide)).1,
    ((c7_snapshot_fallback
      (fun p => if p = (640, 480) then .image [7] else .nonImage (some 12))
      1920 1080 none [7]).1 (by decide) (by decide)).2.1 (by decide),
    (c7_snapshot_fallback (fun _ => .nonImage (some 12)) 640 480 none []).2.1 rfl⟩

/-- Device-side outcome of the relay-control request
`/api/switch/ctrl` in `2n_intercom/api.py` `async_switch_control`: a
JSON object whose optional `success` field is `success?`, a non-object
JSON body, or a transport/HTTP failure. -/
inductive CtrlResp
  | json (success? : Option Bool)
  | nonDict
  | transportError
deriving DecidableEq, Repr

/-- `async_switch_control`: `data.get("success", False)` on an object
body, `False` on a non-object body, and `False` on any exception. -/
def async_switch_control : CtrlResp → Bool
  | .json s => s.getD false
  | .nonDict => false
  | .transportError => false

/-- `twon_intercom/coordinator.py` `async_trigger_relay` (lines
159–188): returns the api call's boolean, and `False` if it raised
(`async_switch_control` itself catches every exception). -/
def async_trigger_relay (resp : CtrlResp) : Bool :=
  async_switch_control resp

/-- One revert task created by `async_turn_on`
(`asyncio.create_task(self._async_turn_off_after_delay())`): its
creation id, the pulse duration it sleeps, and whether it has been
cancelled or has fired. -/
structure TimerRec where
  id : ℕ
  durationMs : ℕ
  cancelled : Bool
  fired : Bool
deriving DecidableEq, Repr

/-- State of one `TwoNIntercomSwitch` entity: `_attr_is_on`, every
revert task ever created, the tracked `_turning_off_task`, a fresh-id
counter, the number of `async_turn_on` calls currently suspended at the
relay `await`, and how many revert tasks have completed and mutated the
state back to off. -/
structure SwitchState where
  isOn : Bool
  timers : List TimerRec
  tracked : Option ℕ
  nextId : ℕ
  inflight : ℕ
  revertCount : ℕ
deriving DecidableEq, Repr

/-- Fresh switch entity: `_attr_is_on = False`,
`_turning_off_task = None`. -/
def initSwitchState : SwitchState := ⟨false, [], none, 0, 0, 0⟩

/-- `task.cancel()` guarded by `if task and not task.done()`: mark the
identified task cancelled when it has neither fired nor been cancelled
already. -/
def cancelTimer (timers : List TimerRec) (i : ℕ) : List TimerRec :=
  timers.map fun tm =>
    if tm.id = i ∧ ¬tm.fired ∧ ¬tm.cancelled then { tm with cancelled := true } else tm

/-- Atomic events of the switch entity.  `async_turn_on` is split at its
`await self.coordinator.async_trigger_relay(...)` suspension point into
`triggerStart` (the cancel of any pending `_turning_off_task`) and
`triggerFinish` (the resumption with the relay call's boolean result);
`timerFire` is a revert task's sleep expiring; `turnOffCall` is
`async_turn_off`. -/
inductive SwitchEvent
  | triggerStart
  | triggerFinish (success : Bool)
  | timerFire (i : ℕ)
  | turnOffCall
deriving DecidableEq, Repr

/-- Transition of the switch entity under one atomic event, from
`2n_intercom/switch.py` lines 94–135.  A `triggerFinish` with no
suspended call is ignored; a `timerFire` of a cancelled or unknown task
performs no state mutation (`asyncio.CancelledError` is swallowed). -/
def switchStep (pulse : ℕ) (st : SwitchState) : SwitchEvent → SwitchState
  | .triggerStart =>
      let timers :=
        match st.tracked with
        | none => st.timers
        | some i => cancelTimer st.timers i
      { st with timers := timers, inflight := st.inflight + 1 }
  | .triggerFinish success =>
      if st.inflight = 0 then st
      else if success then
        { st with
          isOn := true
          timers := st.timers ++ [⟨st.nextId, pulse, false, false⟩]
          tracked := some st.nextId
          nextId := st.nextId + 1
          inflight := st.inflight - 1 }
      else { st with inflight := st.inflight - 1 }
  | .timerFire i =>
      match st.timers.find? (fun tm => tm.id = i) with
      | some tm =>
          if ¬tm.cancelled ∧ ¬tm.fired then
            { st with
              isOn := false
              timers := st.timers.map fun u =>
                if u.id = i then { u with fired := true } else u
              revertCount := st.revertCount + 1 }
          else st
      | none => st
  | .turnOffCall =>
      let timers :=
        match st.tracked with
        | none => st.timers
        | some i => cancelTimer st.timers i
      { st with timers := timers, isOn := false }

/-- The revert tasks that are armed and still pending: neither cancelled
nor fired. -/
def livePending (st : SwitchState) : ℕ :=
  (st.timers.filter fun tm => ¬tm.cancelled ∧ ¬tm.fired).length

/-- A sequence of switch events from a fresh entity. -/
def runSwitch (pulse : ℕ) (events : List SwitchEvent) : SwitchState :=
  events.foldl (switchStep pulse) initSwitchState

/-- C4: two `async_turn_on` calls that overlap at the relay `await` —
the second call's cancel phase runs while the first is still awaiting
the device, so the first call's revert task is armed after that cancel
and is never cancelled.  Both revert tasks are then live at once (the
claimed at-most-one-pending invariant fails) and both fire, performing
two reverts where the claim requires exactly one.  The interleaving is
`[triggerStart₁, triggerStart₂, triggerFinish₁, triggerFinish₂,
timerFire 0, timerFire 1]`. -/
theorem c4_overlapping_triggers_two_reverts :
    livePending (runSwitch 2000
      [.triggerStart, .triggerStart, .triggerFinish true, .triggerFinish true]) = 2 ∧
    (runSwitch 2000
      [.triggerStart, .triggerStart, .triggerFinish true, .triggerFinish true,
        .timerFire 0, .timerFire 1]).revertCount = 2 ∧
    (runSwitch 2000
      [.triggerStart, .triggerFinish true, .triggerStart, .triggerFinish true,
        .timerFire 0, .timerFire 1]).revertCount = 1 := by
  decide

/-- One complete, non-overlapped `async_turn_on` call: the cancel phase
followed immediately by the resumption after the relay call returned
`resp`. -/
def asyncTurnOn (pulse : ℕ) (st : SwitchState) (resp : CtrlResp) : SwitchState :=
  switchStep pulse (switchStep pulse st .triggerStart)
    (.triggerFinish (async_trigger_relay resp))

/-- C5: a relay trigger whose device call reports failure (a
`{"success": false}` body, a body without `success`, a non-object body,
or an exception) returns `False`, leaves `_attr_is_on` unchanged and
arms no revert task; a trigger whose device call reports success sets
`_attr_is_on` immediately and arms exactly one new revert task with the
requested pulse duration, tracked as the pending `_turning_off_task`. -/
theorem c5_trigger_pulse_revert (pulse : ℕ) (st : SwitchState) (resp : CtrlResp) :
    (async_trigger_relay (.json (some false)) = false ∧
      async_trigger_relay (.json none) = false ∧
      async_trigger_relay .nonDict = false ∧
      async_trigger_relay .transportError = false) ∧
    (async_trigger_relay resp = false →
      (asyncTurnOn pulse st resp).isOn = st.isOn ∧
      (asyncTurnOn pulse st resp).timers.length = st.timers.length ∧
      (asyncTurnOn pulse st resp).nextId = st.nextId) ∧
    (async_trigger_relay resp = true →
      (asyncTurnOn pulse st resp).isOn = true ∧
      (asyncTurnOn pulse st resp).timers.length = st.timers.length + 1 ∧
      (asyncTurnOn pulse st resp).timers.getLast?
        = some ⟨st.nextId, pulse, false, false⟩ ∧
      (asyncTurnOn pulse st resp).tracked = some st.nextId) := by
  refine ⟨⟨rfl, rfl, rfl, rfl⟩, ?_, ?_⟩
  · intro hfail
    unfold asyncTurnOn
    rw [hfail]
    cases htr : st.tracked with
    | none => simp [switchStep, cancelTimer, htr]
    | some i => simp [switchStep, cancelTimer, htr]
  · intro hok
    unfold asyncTurnOn
    rw [hok]
    cases htr : st.tracked with
    | none => simp [switchStep, cancelTimer, htr]
    | some i => simp [switchStep, cancelTimer, htr]

/-- C5 witness: from a fresh entity, a `{"success": false}` reply leaves
the switch off with no timer; a `{"success": true}` reply turns it on
and arms the single revert task `0` with the 2000 ms pulse. -/
theorem c5_trigger_pulse_revert_witness :
    ((asyncTurnOn 2000 initSwitchState (.json (some false))).isOn = false ∧
      (asyncTurnOn 2000 initSwitchState (.json (some false))).timers.length = 0) ∧
    ((asyncTurnOn 2000 initSwitchState (.json (some true))).isOn = true ∧
      (asyncTurnOn 2000 initSwitchState (.json (some true))).timers.getLast?
        = some ⟨0, 2000, false, false⟩) :=
  ⟨⟨((c5_trigger_pulse_revert 2000 initSwitchState (.json (some false))).2.1 rfl).1,
    ((c5_trigger_pulse_revert 2000 initSwitchState (.json (some false))).2.1 rfl).2.1⟩,
    ⟨((c5_trigger_pulse_revert 2000 initSwitchState (.json (some true))).2.2 rfl).1,
      ((c5_trigger_pulse_revert 2000 initSwitchState (.json (some true))).2.2 rfl).2.2.1⟩⟩

/-- State of the `TwoNIntercomLock` entity (`twon_intercom/lock.py`):
`_attr_is_locked` plus an instrumentation counter of relay-control
device calls issued. -/
structure LockState where
  isLocked : Bool
  deviceCalls : ℕ
deriving DecidableEq, Repr

/-- Fresh lock entity: `_attr_is_locked = True`. -/
def initLockState : LockState := ⟨true, 0⟩

/-- `async_lock`: set `_attr_is_locked = True`; no device call. -/
def async_lock (st : LockState) : LockState :=
  { st with isLocked := true }

/-- `async_unlock`: call `async_trigger_relay(relay=1, duration=2000)`
and, only on success, set `_attr_is_locked = False`. -/
def async_unlock (st : LockState) (resp : CtrlResp) : LockState :=
  let success := async_trigger_relay resp
  { isLocked := if success then false else st.isLocked
    deviceCalls := st.deviceCalls + 1 }

/-- `async_open`: "Same as unlock" — delegates to `async_unlock`. -/
def async_open (st : LockState) (resp : CtrlResp) : LockState :=
  async_unlock st resp

/-- Passage of time for the lock entity: `lock.py` creates no task,
timer or scheduled callback, so no state changes when time passes. -/
def lockAdvance (st : LockState) (_now : ℤ) : LockState :=
  st

/-- Modelled from the spec (claim C8's expectation): a lock whose
`unlock()` flips to unlocked and schedules a revert back to locked
after the 2000 ms pulse duration. -/
structure ClaimLockState where
  isLocked : Bool
  revertAt : Option ℤ
deriving DecidableEq, Repr

/-- Modelled from the spec: `unlock()` at time `now` — on success flip
to unlocked and arm the revert for `now + 2000` ms. -/
def claimUnlock (st : ClaimLockState) (now : ℤ) (success : Bool) : ClaimLockState :=
  if success then ⟨false, some (now + 2000)⟩ else st

/-- Modelled from the spec: once the revert deadline has passed, the
lock state reverts to locked. -/
def claimAdvance (st : ClaimLockState) (now : ℤ) : ClaimLockState :=
  match st.revertAt with
  | some deadline => if deadline ≤ now then ⟨true, none⟩ else st
  | none => st

/-- C8 counterexample: a successful `unlock()` at time 0, observed at
10 s.  The claim's pulse-and-revert lock has reverted to locked
(deadline 2000 ms), but the code's lock entity schedules nothing and is
still unlocked — the two models disagree on `isLocked`. -/
theorem c8_counterexample :
    (lockAdvance (async_unlock initLockState (.json (some true))) 10000).isLocked
      = false ∧
    (claimAdvance (claimUnlock ⟨true, none⟩ 0 true) 10000).isLocked = true := by
  decide

/-- C8 (amended): `unlock()` issues exactly one relay pulse and, on
success, flips the local state to unlocked; on failure it leaves the
state unchanged; there is no automatic revert — the state stays
unlocked as time passes until an explicit `lock()`, which flips to
locked without any device call; `open()` behaves identically to
`unlock()`. -/
theorem c8_lock_unlock (st : LockState) (resp : CtrlResp) (now : ℤ) :
    (async_trigger_relay resp = true → (async_unlock st resp).isLocked = false) ∧
    (async_trigger_relay resp = false →
      (async_unlock st resp).isLocked = st.isLocked) ∧
    (async_unlock st resp).deviceCalls = st.deviceCalls + 1 ∧
    lockAdvance (async_unlock st resp) now = async_unlock st resp ∧
    (async_lock st).isLocked = true ∧
    (async_lock st).deviceCalls = st.deviceCalls ∧
    async_open st resp = async_unlock st resp := by
  refine ⟨?_, ?_, rfl, rfl, rfl, rfl, rfl⟩
  · intro hok
    simp [async_unlock, hok]
  · intro hfail
    simp [async_unlock, hfail]

/-- C8 witness: a successful unlock from the fresh (locked) lock leaves
it unlocked even after time passes, with one device call; `lock()`
re-locks it without a device call. -/
theorem c8_lock_unlock_witness :
    (async_unlock initLockState (.json (some true))).isLocked = false ∧
    lockAdvance (async_unlock initLockState (.json (some true))) 999999
      = async_unlock initLockState (.json (some true)) ∧
    (async_lock initLockState).deviceCalls = 0 :=
  ⟨(c8_lock_unlock initLockState (.json (some true)) 0).1 rfl,
    (c8_lock_unlock initLockState (.json (some true)) 999999).2.2.2.1,
    (c8_lock_unlock initLockState (.json (some true)) 0).2.2.2.2.2.1⟩

/-- Connection settings shared by both api client variants. -/
structure ApiConfig where
  host : String
  port : ℕ
  username : String
  password : String
deriving DecidableEq, Repr

/-- `twon_intercom/api.py` `get_rtsp_url` (lines 182–205): the RTSP URL
with the password redacted as `****`. -/
def twon_get_rtsp_url (c : ApiConfig) (profile : String) : String :=
  "rtsp://" ++ c.username ++ ":****@" ++ c.host ++ ":" ++ toString c.port
    ++ "/" ++ profile

/-- `twon_intercom/api.py` `get_rtsp_url_with_credentials`: the RTSP URL
with the real password embedded. -/
def twon_get_rtsp_url_with_credentials (c : ApiConfig) (profile : String) : String :=
  "rtsp://" ++ c.username ++ ":" ++ c.password ++ "@" ++ c.host ++ ":"
    ++ toString c.port ++ "/" ++ profile

/-- `RTSP_PATH = "h264_stream"` from `2n_intercom/api.py`. -/
def RTSP_PATH : String := "h264_stream"

/-- `2n_intercom/api.py` `_get_rtsp_port`: 554 when the HTTP port is 80
or 443, else the configured port. -/
def twoN_get_rtsp_port (c : ApiConfig) : ℕ :=
  if c.port = 80 ∨ c.port = 443 then 554 else c.port

/-- `2n_intercom/api.py` `get_rtsp_url` (lines 375–398): redacted
variant. -/
def twoN_get_rtsp_url (c : ApiConfig) : String :=
  "rtsp://" ++ c.username ++ ":****@" ++ c.host ++ ":"
    ++ toString (twoN_get_rtsp_port c) ++ "/" ++ RTSP_PATH

/-- `2n_intercom/api.py` `get_rtsp_url_with_credentials`. -/
def twoN_get_rtsp_url_with_credentials (c : ApiConfig) : String :=
  "rtsp://" ++ c.username ++ ":" ++ c.password ++ "@" ++ c.host ++ ":"
    ++ toString (twoN_get_rtsp_port c) ++ "/" ++ RTSP_PATH

/-- C10: in both api variants, `get_rtsp_url` returns identical strings
for any two clients that differ only in their password — it equals the
credentials URL of the client whose password is literally `****` —
while `get_rtsp_url_with_credentials` embeds the actual password (it is
a substring of the output, and two clients with different passwords get
different URLs at a concrete configuration). -/
theorem c10_rtsp_password_noninterference :
    (∀ host port user prof p₁ p₂,
      twon_get_rtsp_url ⟨host, port, user, p₁⟩ prof
        = twon_get_rtsp_url ⟨host, port, user, p₂⟩ prof) ∧
    (∀ host port user p₁ p₂,
      twoN_get_rtsp_url ⟨host, port, user, p₁⟩
        = twoN_get_rtsp_url ⟨host, port, user, p₂⟩) ∧
    (∀ c prof, twon_get_rtsp_url c prof
        = twon_get_rtsp_url_with_credentials { c with password := "****" } prof) ∧
    (∀ c, twoN_get_rtsp_url c
        = twoN_get_rtsp_url_with_credentials { c with password := "****" }) ∧
    (∀ c prof, ∃ pre suf,
      (twon_get_rtsp_url_with_credentials c prof).data
        = pre ++ c.password.data ++ suf) ∧
    (∀ c, ∃ pre suf,
      (twoN_get_rtsp_url_with_credentials c).data
        = pre ++ c.password.data ++ suf) ∧
    twon_get_rtsp_url_with_credentials ⟨"h", 554, "u", "pw1"⟩ "default"
      ≠ twon_get_rtsp_url_with_credentials ⟨"h", 554, "u", "pw2"⟩ "default" := by
  refine ⟨fun _ _ _ _ _ _ => ?_, fun _ _ _ _ _ => ?_, fun c prof => ?_,
    fun c => ?_, fun c prof => ?_, fun c => ?_, ?_⟩
  · rfl
  · rfl
  · show _ = "rtsp://" ++ c.username ++ ":" ++ "****" ++ "@" ++ c.host ++ ":"
      ++ toString c.port ++ "/" ++ prof
    simp [twon_get_rtsp_url, String.append_assoc]
  · show _ = "rtsp://" ++ c.username ++ ":" ++ "****" ++ "@" ++ c.host ++ ":"
      ++ toString (twoN_get_rtsp_port _) ++ "/" ++ RTSP_PATH
    simp [twoN_get_rtsp_url, twoN_get_rtsp_port, String.append_assoc]
  · exact ⟨("rtsp://" ++ c.username ++ ":").data,
      ("@" ++ c.host ++ ":" ++ toString c.port ++ "/" ++ prof).data,
      by simp [twon_get_rtsp_url_with_credentials, String.data_append,
        List.append_assoc]⟩
  · exact ⟨("rtsp://" ++ c.username ++ ":").data,
      ("@" ++ c.host ++ ":" ++ toString (twoN_get_rtsp_port c) ++ "/"
        ++ RTSP_PATH).data,
      by simp [twoN_get_rtsp_url_with_credentials, String.data_append,
        List.append_assoc]⟩
  · decide

end TwoN
